import Mathlib

/-!
Verification of the resilient ENS resolution client of `src/lib/ens/resolver.ts`
(repository `imdewan/ens-social`).

The TypeScript module keeps process-wide mutable state (an endpoint cursor and a
lazily-constructed provider handle) and wraps calls to an external JSON-RPC
client (`ethers`) in retry/rotation logic.  We embed it shallowly:

* module-level mutable state becomes an explicit `ClientState` record threaded
  through every function;
* the external `ethers` client is an abstract `Transport` oracle: each of its
  operations receives the global transport-call number and the index of the
  endpoint the current provider handle is bound to, and returns
  `Except String _` (a JS promise rejection is `Except.error`);
* a JS `async` function that may reject is modelled as returning
  `Except String α`; the public operations all carry a catch-all, and we prove
  they always return `Except.ok`;
* ghost fields of `ClientState` (`rotations`, `trace`, the `…Calls` counters)
  count rotations, record the endpoint index used by each retried attempt, and
  count invocations of each transport operation; they exist only to state the
  observational claims (call counts, endpoints tried) and are not read by the
  embedded code.
-/

namespace EnsSocial

/-- The fixed public fallback endpoint URLs of `RPC_ENDPOINTS`
(`resolver.ts` lines 5-8), in source order. -/
def FALLBACK_RPC_URLS : List String :=
  [ "https://eth.drpc.org"
  , "https://rpc.ankr.com/eth"
  , "https://ethereum.publicnode.com"
  , "https://eth.llamarpc.com" ]

/-- JavaScript truthiness of a `string | undefined` value, as used by
`.filter(Boolean)`: `undefined` and the empty string are falsy. -/
def jsTruthy : Option String → Bool
  | none => false
  | some s => s ≠ ""

/-- `RPC_ENDPOINTS` (`resolver.ts` lines 3-9): the five-element array
`[process.env.ETHEREUM_RPC_URL, …fallbacks]` filtered by `Boolean`.
`envUrl` models `process.env.ETHEREUM_RPC_URL` (`none` = unset,
`some ""` = set to the empty string). -/
def RPC_ENDPOINTS (envUrl : Option String) : List String :=
  (([envUrl] ++ FALLBACK_RPC_URLS.map some).filter jsTruthy).filterMap id

/-- A resolver handle returned by `provider.getResolver` (an opaque object
in the source; only its identity matters to this module). -/
abbrev Resolver := Nat

/-- The external `ethers` JSON-RPC client, as an oracle.  Each operation takes
the global transport-call number (so behaviour may differ from call to call)
and, for provider-level operations, the index of the endpoint the provider
handle is bound to.  `Except.error` models a rejected promise; `Option` in the
result models `null` returns of the underlying library. -/
structure Transport where
  resolveName : Nat → Nat → String → Except String (Option String)
  lookupAddress : Nat → Nat → String → Except String (Option String)
  getResolver : Nat → Nat → String → Except String (Option Resolver)
  getAvatar : Nat → Resolver → Except String (Option String)
  getText : Nat → Resolver → String → Except String (Option String)

/-- The module-level mutable state of `resolver.ts` plus ghost instrumentation.
`currentRpcIndex` and `provider` are the two `let` variables of lines 11-12;
a provider handle is represented by the index of the endpoint it was
constructed from (`provider = some i` ↔ the handle is bound to
`RPC_ENDPOINTS[i]`).  The remaining fields are ghost observers:
`rotations` counts calls to `rotateProvider`, `trace` records the endpoint
index used by each provider-level transport invocation, `calls` is the global
transport-call number fed to the oracle, and the `…Calls` fields count
invocations of the respective transport operations. -/
structure ClientState where
  currentRpcIndex : Nat
  provider : Option Nat
  rotations : Nat
  trace : List Nat
  calls : Nat
  resolveCalls : Nat
  lookupCalls : Nat
  getResolverCalls : Nat
  getAvatarCalls : Nat
  getTextCalls : Nat
deriving Repr, DecidableEq

/-- `getProvider` (`resolver.ts` lines 14-19): lazily constructs the provider
handle bound to the endpoint at the current cursor; returns the existing
handle when one is present. -/
def getProvider (s : ClientState) : Nat × ClientState :=
  match s.provider with
  | some i => (i, s)
  | none => (s.currentRpcIndex, { s with provider := some s.currentRpcIndex })

/-- `rotateProvider` (`resolver.ts` lines 21-24): advances the cursor by one
modulo the pool size and constructs a fresh handle bound to the new
endpoint. -/
def rotateProvider (pool : List String) (s : ClientState) : ClientState :=
  let i := (s.currentRpcIndex + 1) % pool.length
  { s with currentRpcIndex := i, provider := some i,
           rotations := s.rotations + 1 }

/-- One invocation of `getProvider().resolveName(name)` (the closure passed to
`withRetry` on line 41): obtains the provider handle, invokes the transport
against its endpoint, and bumps the ghost counters/trace. -/
def resolveNameStep (t : Transport) (name : String) (s : ClientState) :
    Except String (Option String) × ClientState :=
  let (i, s1) := getProvider s
  (t.resolveName s1.calls i name,
   { s1 with calls := s1.calls + 1, resolveCalls := s1.resolveCalls + 1,
             trace := s1.trace ++ [i] })

/-- One invocation of `getProvider().lookupAddress(address)` (line 49). -/
def lookupAddressStep (t : Transport) (address : String) (s : ClientState) :
    Except String (Option String) × ClientState :=
  let (i, s1) := getProvider s
  (t.lookupAddress s1.calls i address,
   { s1 with calls := s1.calls + 1, lookupCalls := s1.lookupCalls + 1,
             trace := s1.trace ++ [i] })

/-- One invocation of `getProvider().getResolver(name)` (lines 57, 70, 100). -/
def getResolverStep (t : Transport) (name : String) (s : ClientState) :
    Except String (Option Resolver) × ClientState :=
  let (i, s1) := getProvider s
  (t.getResolver s1.calls i name,
   { s1 with calls := s1.calls + 1,
             getResolverCalls := s1.getResolverCalls + 1,
             trace := s1.trace ++ [i] })

/-- The loop of `withRetry` (`resolver.ts` lines 26-37), counting the
remaining iterations down and threading `lastError`.  When the budget is
exhausted the recorded last error is re-thrown (`Except.error`); the error
payload is `Option String` because `lastError` starts as `null`. -/
def withRetryAux {α : Type} (pool : List String)
    (fn : ClientState → Except String α × ClientState) :
    Nat → Option String → ClientState →
      Except (Option String) α × ClientState
  | 0, lastError, s => (Except.error lastError, s)
  | Nat.succ n, _, s =>
    match fn s with
    | (Except.ok v, s1) => (Except.ok v, s1)
    | (Except.error e, s1) =>
      withRetryAux pool fn n (some e) (rotateProvider pool s1)

/-- `withRetry(fn, retries)` (`resolver.ts` lines 26-37).  All call sites in
the module use the default `retries = 3`, passed explicitly here. -/
def withRetry {α : Type} (pool : List String)
    (fn : ClientState → Except String α × ClientState)
    (retries : Nat) (s : ClientState) :
    Except (Option String) α × ClientState :=
  withRetryAux pool fn retries none s

/-- `resolveENSName` (`resolver.ts` lines 39-45): the retried resolution,
with the catch-all converting any failure to `null`.  The result component is
`Except.ok v` when the JS function fulfils with `v` and `Except.error _` if it
would reject (we prove it never does). -/
def resolveENSName (t : Transport) (pool : List String) (name : String)
    (s : ClientState) : Except String (Option String) × ClientState :=
  match withRetry pool (resolveNameStep t name) 3 s with
  | (Except.ok v, s1) => (Except.ok v, s1)
  | (Except.error _, s1) => (Except.ok none, s1)

/-- `lookupAddress` (`resolver.ts` lines 47-53). -/
def lookupAddress (t : Transport) (pool : List String) (address : String)
    (s : ClientState) : Except String (Option String) × ClientState :=
  match withRetry pool (lookupAddressStep t address) 3 s with
  | (Except.ok v, s1) => (Except.ok v, s1)
  | (Except.error _, s1) => (Except.ok none, s1)

/-- `getENSAvatar` (`resolver.ts` lines 55-63): resolver lookup wrapped in
`withRetry`; if no resolver, return `null`; otherwise a single (unretried)
`resolver.getAvatar()` call, with the catch-all converting any failure to
`null`. -/
def getENSAvatar (t : Transport) (pool : List String) (name : String)
    (s : ClientState) : Except String (Option String) × ClientState :=
  match withRetry pool (getResolverStep t name) 3 s with
  | (Except.error _, s1) => (Except.ok none, s1)
  | (Except.ok none, s1) => (Except.ok none, s1)
  | (Except.ok (some r), s1) =>
    let s2 := { s1 with calls := s1.calls + 1,
                        getAvatarCalls := s1.getAvatarCalls + 1 }
    match t.getAvatar s1.calls r with
    | Except.ok v => (Except.ok v, s2)
    | Except.error _ => (Except.ok none, s2)

/-- `getENSText` (`resolver.ts` lines 65-76): identical shape to
`getENSAvatar` with a single (unretried) `resolver.getText(key)` call. -/
def getENSText (t : Transport) (pool : List String) (name key : String)
    (s : ClientState) : Except String (Option String) × ClientState :=
  match withRetry pool (getResolverStep t name) 3 s with
  | (Except.error _, s1) => (Except.ok none, s1)
  | (Except.ok none, s1) => (Except.ok none, s1)
  | (Except.ok (some r), s1) =>
    let s2 := { s1 with calls := s1.calls + 1,
                        getTextCalls := s1.getTextCalls + 1 }
    match t.getText s1.calls r key with
    | Except.ok v => (Except.ok v, s2)
    | Except.error _ => (Except.ok none, s2)

/-- `COMMON_TEXT_RECORDS` (`resolver.ts` lines 78-91). -/
def COMMON_TEXT_RECORDS : List String :=
  [ "email", "url", "avatar", "description", "notice", "keywords"
  , "com.discord", "com.github", "com.reddit", "com.twitter"
  , "org.telegram", "io.keybase" ]

/-- `getTextRecordWithRetry` (`resolver.ts` lines 93-109): hand-rolled retry
loop around the two-step sequence `getProvider().getResolver(name)` then
`resolver.getText(key)`; on any failure it rotates and retries the whole
sequence; after exhausting the budget it returns `null` (it never throws —
the result is nonetheless typed `Except` so that this is a theorem, not a
typing convention). -/
def getTextRecordWithRetry (t : Transport) (pool : List String)
    (name key : String) :
    Nat → ClientState → Except String (Option String) × ClientState
  | 0, s => (Except.ok none, s)
  | Nat.succ n, s =>
    match getResolverStep t name s with
    | (Except.error _, s1) =>
      getTextRecordWithRetry t pool name key n (rotateProvider pool s1)
    | (Except.ok none, s1) => (Except.ok none, s1)
    | (Except.ok (some r), s1) =>
      let s2 := { s1 with calls := s1.calls + 1,
                          getTextCalls := s1.getTextCalls + 1 }
      match t.getText s1.calls r key with
      | Except.error _ =>
        getTextRecordWithRetry t pool name key n (rotateProvider pool s2)
      | Except.ok v => (Except.ok v, s2)

/-- The aggregation step of `getAllTextRecords` (`resolver.ts` lines
123-127): a settled per-key result contributes an entry exactly when it is
fulfilled (`Except.ok`) and its value is truthy (non-`null` and non-empty:
`result.status === "fulfilled" && result.value.value`). -/
def aggKeep (res : Except String (Option String)) (key : String) :
    Option (String × String) :=
  match res with
  | Except.ok (some v) => if v = "" then none else some (key, v)
  | _ => none

/-- `getAllTextRecords` (`resolver.ts` lines 111-130).  The source dispatches
the 12 per-key lookups concurrently over the shared mutable state and joins
with `Promise.allSettled`.  Concurrency is modelled by giving each key its own
transport oracle (`ts key`) and running it from the shared state snapshot:
interleaved rotations by sibling tasks only change which endpoint/call number
an attempt sees, which the per-key oracle already abstracts.  A settled result
is `(getTextRecordWithRetry …).1`; the aggregation keeps exactly the results
accepted by `aggKeep`.  The returned JS object is modelled as an association
list (keys are distinct, and no claim depends on object ordering). -/
def getAllTextRecords (ts : String → Transport) (pool : List String)
    (name : String) (s : ClientState) : List (String × String) :=
  COMMON_TEXT_RECORDS.filterMap (fun key =>
    aggKeep ((getTextRecordWithRetry (ts key) pool name key 3 s).1) key)

/-- Whether the aggregator of `getAllTextRecords` keeps key `key`: its settled
per-key result is fulfilled with a truthy value. -/
def recordTruthy (ts : String → Transport) (pool : List String)
    (name : String) (s : ClientState) (key : String) : Bool :=
  (aggKeep ((getTextRecordWithRetry (ts key) pool name key 3 s).1) key).isSome

/-! ### Concrete fixtures used by witnesses -/

/-- The module state at process start: cursor `0`, no provider handle yet,
all ghost counters zero. -/
def initState : ClientState :=
  { currentRpcIndex := 0, provider := none, rotations := 0, trace := []
  , calls := 0, resolveCalls := 0, lookupCalls := 0, getResolverCalls := 0
  , getAvatarCalls := 0, getTextCalls := 0 }

/-- A transport whose every operation rejects. -/
def alwaysFailTransport : Transport :=
  { resolveName := fun _ _ _ => Except.error "down"
  , lookupAddress := fun _ _ _ => Except.error "down"
  , getResolver := fun _ _ _ => Except.error "down"
  , getAvatar := fun _ _ => Except.error "down"
  , getText := fun _ _ _ => Except.error "down" }

/-! ### Helper lemmas -/

theorem getProvider_of_none (s : ClientState) (hp : s.provider = none) :
    getProvider s = (s.currentRpcIndex,
      { s with provider := some s.currentRpcIndex }) := by
  simp [getProvider, hp]

theorem getProvider_of_some (s : ClientState) (i : Nat)
    (hp : s.provider = some i) : getProvider s = (i, s) := by
  simp [getProvider, hp]

theorem rotateProvider_cursor (pool : List String) (s : ClientState) :
    (rotateProvider pool s).currentRpcIndex
      = (s.currentRpcIndex + 1) % pool.length := rfl

/-- Cursor position after `k` rotations. -/
theorem rotate_iterate_cursor (pool : List String) (s : ClientState)
    (h : s.currentRpcIndex < pool.length) (k : Nat) :
    ((rotateProvider pool)^[k] s).currentRpcIndex
      = (s.currentRpcIndex + k) % pool.length := by
  induction k with
  | zero => simp [Nat.mod_eq_of_lt h]
  | succ k ih =>
    rw [Function.iterate_succ_apply', rotateProvider_cursor, ih,
      Nat.mod_add_mod, Nat.add_assoc]

/-- If every iteration of the retried step fails and bumps the counter `g` by
one (and rotation preserves `g`), the whole retry loop fails and bumps `g` by
the number of iterations. -/
theorem withRetryAux_all_fail {α : Type} (pool : List String)
    (fn : ClientState → Except String α × ClientState)
    (g : ClientState → Nat)
    (hfn : ∀ s, (∃ e, (fn s).1 = Except.error e) ∧ g (fn s).2 = g s + 1)
    (hrot : ∀ s, g (rotateProvider pool s) = g s) :
    ∀ (n : Nat) (le : Option String) (s : ClientState),
      (∃ e : Option String,
        (withRetryAux pool fn n le s).1 = Except.error e) ∧
      g (withRetryAux pool fn n le s).2 = g s + n := by
  intro n
  induction n with
  | zero => intro le s; exact ⟨⟨le, rfl⟩, rfl⟩
  | succ n ih =>
    intro le s
    obtain ⟨⟨e, he⟩, hg⟩ := hfn s
    rcases hx : fn s with ⟨a, s1⟩
    rw [hx] at he hg
    simp only at he
    subst he
    simp only [withRetryAux, hx]
    obtain ⟨⟨e2, he2⟩, hg2⟩ := ih (some e) (rotateProvider pool s1)
    refine ⟨⟨e2, he2⟩, ?_⟩
    rw [hg2, hrot, hg]
    omega

theorem withRetryAux_preserves {α : Type} (pool : List String)
    (fn : ClientState → Except String α × ClientState)
    (g : ClientState → Nat)
    (hfn : ∀ s, g (fn s).2 = g s)
    (hrot : ∀ s, g (rotateProvider pool s) = g s) :
    ∀ (n : Nat) (le : Option String) (s : ClientState),
      g (withRetryAux pool fn n le s).2 = g s := by
  intro n
  induction n with
  | zero => intro le s; rfl
  | succ n ih =>
    intro le s
    rcases hx : fn s with ⟨a, s1⟩
    have hg := hfn s
    rw [hx] at hg
    cases a with
    | ok v => simp only [withRetryAux, hx]; exact hg
    | error e =>
      simp only [withRetryAux, hx]
      rw [ih, hrot]
      exact hg

/-- A failing `resolveName` transport makes `resolveNameStep` fail and bump
the resolve-call counter by one. -/
theorem resolveNameStep_fail (t : Transport) (name : String)
    (hfail : ∀ c i, ∃ e, t.resolveName c i name = Except.error e)
    (s : ClientState) :
    (∃ e, (resolveNameStep t name s).1 = Except.error e) ∧
    ((resolveNameStep t name s).2).resolveCalls = s.resolveCalls + 1 := by
  cases hp : s.provider with
  | none =>
    obtain ⟨e, he⟩ := hfail s.calls s.currentRpcIndex
    refine ⟨⟨e, ?_⟩, ?_⟩ <;>
      simp [resolveNameStep, getProvider_of_none s hp, he]
  | some i =>
    obtain ⟨e, he⟩ := hfail s.calls i
    refine ⟨⟨e, ?_⟩, ?_⟩ <;>
      simp [resolveNameStep, getProvider_of_some s i hp, he]

/-! ### Claims -/

/-- C1: with a transport that fails on every call, `resolveENSName` makes
exactly 3 attempts against the underlying transport (the resolve operation is
invoked exactly 3 times) and then returns the absence value (`null`), without
rejecting. -/
theorem resolveENSName_retry_budget (t : Transport) (pool : List String)
    (name : String) (s : ClientState)
    (hfail : ∀ c i, ∃ e, t.resolveName c i name = Except.error e) :
    (resolveENSName t pool name s).1 = Except.ok none ∧
    ((resolveENSName t pool name s).2).resolveCalls = s.resolveCalls + 3 := by
  obtain ⟨⟨e, he⟩, hg⟩ := withRetryAux_all_fail pool (resolveNameStep t name)
    (fun s => s.resolveCalls) (resolveNameStep_fail t name hfail)
    (fun s => rfl) 3 none s
  rcases hx : withRetryAux pool (resolveNameStep t name) 3 none s with ⟨a, s1⟩
  rw [hx] at he hg
  simp only at he hg
  subst he
  have hw : withRetry pool (resolveNameStep t name) 3 s
      = (Except.error e, s1) := hx
  constructor
  · simp [resolveENSName, hw]
  · simp [resolveENSName, hw, hg]

/-- C1 witness: the theorem at an always-failing transport, the default pool
and the start state. -/
theorem resolveENSName_retry_budget_witness :
    (resolveENSName alwaysFailTransport (RPC_ENDPOINTS none) "alice.eth"
        initState).1 = Except.ok none ∧
    ((resolveENSName alwaysFailTransport (RPC_ENDPOINTS none) "alice.eth"
        initState).2).resolveCalls = initState.resolveCalls + 3 :=
  resolveENSName_retry_budget alwaysFailTransport (RPC_ENDPOINTS none)
    "alice.eth" initState (fun _ _ => ⟨"down", rfl⟩)

/-- C2: each rotation advances the endpoint cursor by exactly one position
modulo the pool size, and `pool.length` consecutive rotations return the
cursor to its starting position. -/
theorem rotateProvider_cycle (pool : List String) (s : ClientState)
    (h : s.currentRpcIndex < pool.length) :
    (∀ s' : ClientState,
      (rotateProvider pool s').currentRpcIndex
        = (s'.currentRpcIndex + 1) % pool.length) ∧
    ((rotateProvider pool)^[pool.length] s).currentRpcIndex
      = s.currentRpcIndex := by
  refine ⟨fun s' => rfl, ?_⟩
  rw [rotate_iterate_cursor pool s h, Nat.add_mod_right]
  exact Nat.mod_eq_of_lt h

/-- C2 witness: the theorem at the default pool (size 4) and the start
state. -/
theorem rotateProvider_cycle_witness :
    initState.currentRpcIndex < (RPC_ENDPOINTS none).length ∧
    ((rotateProvider (RPC_ENDPOINTS none))^[(RPC_ENDPOINTS none).length]
        initState).currentRpcIndex = initState.currentRpcIndex :=
  ⟨by decide, (rotateProvider_cycle (RPC_ENDPOINTS none) initState
      (by decide)).2⟩

/-- C3: for every transport behaviour (including one that throws on every
call), none of the four public operations rejects: each fulfils with some
value (all failures are converted to the absence value internally). -/
theorem publicOps_never_throw (t : Transport) (pool : List String)
    (name address key : String) (s : ClientState) :
    (∃ v, (resolveENSName t pool name s).1 = Except.ok v) ∧
    (∃ v, (lookupAddress t pool address s).1 = Except.ok v) ∧
    (∃ v, (getENSAvatar t pool name s).1 = Except.ok v) ∧
    (∃ v, (getENSText t pool name key s).1 = Except.ok v) := by
  refine ⟨?_, ?_, ?_, ?_⟩
  · simp only [resolveENSName]
    split <;> exact ⟨_, rfl⟩
  · simp only [lookupAddress]
    split <;> exact ⟨_, rfl⟩
  · simp only [getENSAvatar]
    split <;> (try split) <;> exact ⟨_, rfl⟩
  · simp only [getENSText]
    split <;> (try split) <;> exact ⟨_, rfl⟩

theorem RPC_ENDPOINTS_none_eq : RPC_ENDPOINTS none = FALLBACK_RPC_URLS := by
  decide

theorem RPC_ENDPOINTS_some_empty_eq :
    RPC_ENDPOINTS (some "") = FALLBACK_RPC_URLS := by decide

theorem RPC_ENDPOINTS_some_ne (u : String) (hu : u ≠ "") :
    RPC_ENDPOINTS (some u) = u :: FALLBACK_RPC_URLS := by
  have ht : jsTruthy (some u) = true := by simp [jsTruthy, hu]
  have h1 : ([some u] ++ FALLBACK_RPC_URLS.map some).filter jsTruthy
      = some u :: (FALLBACK_RPC_URLS.map some).filter jsTruthy := by
    simp [List.filter_cons, ht]
  have h4 : ((FALLBACK_RPC_URLS.map some).filter jsTruthy).filterMap id
      = FALLBACK_RPC_URLS := by decide
  unfold RPC_ENDPOINTS
  rw [h1, List.filterMap_cons]
  simp [h4]

theorem RPC_ENDPOINTS_len (envUrl : Option String) :
    4 ≤ (RPC_ENDPOINTS envUrl).length := by
  cases envUrl with
  | none => decide
  | some u =>
    by_cases hu : u = ""
    · subst hu; decide
    · rw [RPC_ENDPOINTS_some_ne u hu]; simp [FALLBACK_RPC_URLS]

/-- C5 counterexample: with the primary environment variable set to the empty
string (a set-but-empty value), the pool is not
`"" :: FALLBACK_RPC_URLS`: `.filter(Boolean)` drops the falsy empty string,
so the claim "when it is set, the pool is the primary endpoint followed by
the fallback list" fails at this input. -/
theorem RPC_ENDPOINTS_set_empty_cex :
    ¬ (RPC_ENDPOINTS (some "") = "" :: FALLBACK_RPC_URLS) := by decide

/-- C5 (amended): when the primary environment variable is unset, or set to
the empty string, the pool is exactly the fixed fallback list in order; when
it is set to a non-empty string, the pool is the primary endpoint followed by
the fallback list in order. -/
theorem RPC_ENDPOINTS_construction :
    RPC_ENDPOINTS none = FALLBACK_RPC_URLS ∧
    RPC_ENDPOINTS (some "") = FALLBACK_RPC_URLS ∧
    ∀ u : String, u ≠ "" →
      RPC_ENDPOINTS (some u) = u :: FALLBACK_RPC_URLS :=
  ⟨RPC_ENDPOINTS_none_eq, RPC_ENDPOINTS_some_empty_eq,
   fun u hu => RPC_ENDPOINTS_some_ne u hu⟩

/-- C5 witness: the amended theorem at a concrete non-empty primary. -/
theorem RPC_ENDPOINTS_construction_witness :
    ("http://localhost:8545" : String) ≠ "" ∧
    RPC_ENDPOINTS (some "http://localhost:8545")
      = "http://localhost:8545" :: FALLBACK_RPC_URLS :=
  ⟨by decide,
   RPC_ENDPOINTS_construction.2.2 "http://localhost:8545" (by decide)⟩

/-- C6: the endpoint pool is non-empty whether or not the primary environment
endpoint is configured, and after every possible sequence of rotations the
cursor remains a valid index into the pool. -/
theorem pool_nonempty_cursor_valid (envUrl : Option String) (s : ClientState)
    (k : Nat) (h : s.currentRpcIndex < (RPC_ENDPOINTS envUrl).length) :
    RPC_ENDPOINTS envUrl ≠ [] ∧
    ((rotateProvider (RPC_ENDPOINTS envUrl))^[k] s).currentRpcIndex
      < (RPC_ENDPOINTS envUrl).length := by
  have hlen := RPC_ENDPOINTS_len envUrl
  constructor
  · intro hnil
    rw [hnil] at hlen
    simp at hlen
  · rw [rotate_iterate_cursor _ s h k]
    exact Nat.mod_lt _ (by omega)

/-- C6 witness: the theorem with a configured primary, at the start state and
nine rotations. -/
theorem pool_nonempty_cursor_valid_witness :
    initState.currentRpcIndex < (RPC_ENDPOINTS (some "http://x")).length ∧
    (RPC_ENDPOINTS (some "http://x") ≠ [] ∧
     ((rotateProvider (RPC_ENDPOINTS (some "http://x")))^[9]
         initState).currentRpcIndex
       < (RPC_ENDPOINTS (some "http://x")).length) :=
  ⟨by decide, pool_nonempty_cursor_valid (some "http://x") initState 9
      (by decide)⟩

/-- Field bookkeeping of a single `getResolverStep`: it bumps the call
counters, touches neither the ghost avatar/text counters nor the rotation
count nor the cursor. -/
theorem getResolverStep_fields (t : Transport) (name : String)
    (s : ClientState) :
    ((getResolverStep t name s).2).getTextCalls = s.getTextCalls ∧
    ((getResolverStep t name s).2).getAvatarCalls = s.getAvatarCalls ∧
    ((getResolverStep t name s).2).rotations = s.rotations ∧
    ((getResolverStep t name s).2).currentRpcIndex = s.currentRpcIndex ∧
    ((getResolverStep t name s).2).calls = s.calls + 1 ∧
    ((getResolverStep t name s).2).getResolverCalls
      = s.getResolverCalls + 1 := by
  cases hp : s.provider with
  | none => simp [getResolverStep, getProvider_of_none s hp]
  | some i => simp [getResolverStep, getProvider_of_some s i hp]

/-- A failing `getResolver` transport makes `getResolverStep` fail. -/
theorem getResolverStep_fail (t : Transport) (name : String)
    (hfail : ∀ c i, ∃ e, t.getResolver c i name = Except.error e)
    (s : ClientState) :
    ∃ e, (getResolverStep t name s).1 = Except.error e := by
  cases hp : s.provider with
  | none =>
    obtain ⟨e, he⟩ := hfail s.calls s.currentRpcIndex
    exact ⟨e, by simp [getResolverStep, getProvider_of_none s hp, he]⟩
  | some i =>
    obtain ⟨e, he⟩ := hfail s.calls i
    exact ⟨e, by simp [getResolverStep, getProvider_of_some s i hp, he]⟩

/-- A `getResolver` transport that always yields the resolver `r` makes
`getResolverStep` succeed with `r`. -/
theorem getResolverStep_ok (t : Transport) (name : String) (r : Resolver)
    (hres : ∀ c i, t.getResolver c i name = Except.ok (some r))
    (s : ClientState) :
    (getResolverStep t name s).1 = Except.ok (some r) := by
  cases hp : s.provider with
  | none => simp [getResolverStep, getProvider_of_none s hp, hres]
  | some i => simp [getResolverStep, getProvider_of_some s i hp, hres]

/-- C7: whenever the retried resolver lookup of `getENSAvatar` succeeds but
yields no resolver, the operation returns absence without ever invoking the
avatar query; and a transport failure in either step (retry exhaustion of the
resolver lookup, or a failing avatar query) also yields absence rather than
an error. -/
theorem getENSAvatar_spec (t : Transport) (pool : List String) (name : String)
    (s : ClientState) :
    ((withRetry pool (getResolverStep t name) 3 s).1 = Except.ok none →
      (getENSAvatar t pool name s).1 = Except.ok none ∧
      ((getENSAvatar t pool name s).2).getAvatarCalls = s.getAvatarCalls) ∧
    (∀ e, (withRetry pool (getResolverStep t name) 3 s).1 = Except.error e →
      (getENSAvatar t pool name s).1 = Except.ok none) ∧
    (∀ r : Resolver,
      (withRetry pool (getResolverStep t name) 3 s).1 = Except.ok (some r) →
      (∀ c, ∃ err, t.getAvatar c r = Except.error err) →
      (getENSAvatar t pool name s).1 = Except.ok none) := by
  have hpres : ∀ s' : ClientState,
      ((withRetryAux pool (getResolverStep t name) 3 none s').2).getAvatarCalls
        = s'.getAvatarCalls :=
    withRetryAux_preserves pool (getResolverStep t name)
      (fun s' => s'.getAvatarCalls)
      (fun s' => (getResolverStep_fields t name s').2.1)
      (fun s' => rfl) 3 none
  rcases hx : withRetry pool (getResolverStep t name) 3 s with ⟨a, s1⟩
  have hx' : withRetryAux pool (getResolverStep t name) 3 none s
      = (a, s1) := hx
  refine ⟨?_, ?_, ?_⟩
  · intro h
    simp only at h
    subst h
    have hcalls := hpres s
    rw [hx'] at hcalls
    simp only at hcalls
    exact ⟨by simp [getENSAvatar, hx], by simp [getENSAvatar, hx, hcalls]⟩
  · intro e h
    simp only at h
    subst h
    simp [getENSAvatar, hx]
  · intro r h hav
    simp only at h
    subst h
    obtain ⟨err, herr⟩ := hav s1.calls
    simp [getENSAvatar, hx, herr]

/-- A transport whose resolver lookup succeeds with no resolver and whose
other operations all reject (used by witnesses). -/
def noResolverTransport : Transport :=
  { resolveName := fun _ _ _ => Except.error "down"
  , lookupAddress := fun _ _ _ => Except.error "down"
  , getResolver := fun _ _ _ => Except.ok none
  , getAvatar := fun _ _ => Except.error "down"
  , getText := fun _ _ _ => Except.error "down" }

/-- C7 witness: the first conjunct of the theorem at a transport whose
resolver lookup yields no resolver, at the default pool and start state. -/
theorem getENSAvatar_spec_witness :
    (withRetry (RPC_ENDPOINTS none)
        (getResolverStep noResolverTransport "alice.eth") 3 initState).1
      = Except.ok none ∧
    ((getENSAvatar noResolverTransport (RPC_ENDPOINTS none) "alice.eth"
        initState).1 = Except.ok none ∧
     ((getENSAvatar noResolverTransport (RPC_ENDPOINTS none) "alice.eth"
        initState).2).getAvatarCalls = initState.getAvatarCalls) :=
  ⟨rfl, (getENSAvatar_spec noResolverTransport (RPC_ENDPOINTS none)
      "alice.eth" initState).1 rfl⟩

/-- `getTextRecordWithRetry` never rejects: the hand-rolled loop catches every
failure and falls back to `null`. -/
theorem getTextRecordWithRetry_never_throws (t : Transport)
    (pool : List String) (name key : String) :
    ∀ (n : Nat) (s : ClientState),
      ∃ v, (getTextRecordWithRetry t pool name key n s).1 = Except.ok v := by
  intro n
  induction n with
  | zero => intro s; exact ⟨none, rfl⟩
  | succ n ih =>
    intro s
    rcases hx : getResolverStep t name s with ⟨a, s1⟩
    simp only [getTextRecordWithRetry, hx]
    cases a with
    | error e => exact ih _
    | ok o =>
      cases o with
      | none => exact ⟨none, rfl⟩
      | some r =>
        cases hT : t.getText s1.calls r key with
        | error e => simp only [hT]; exact ih _
        | ok v => exact ⟨v, by simp [hT]⟩

/-- When every resolver lookup fails, `getTextRecordWithRetry` consumes its
whole budget: one resolver attempt and one rotation per iteration, then
`null`. -/
theorem getTextRecordWithRetry_all_fail (t : Transport) (pool : List String)
    (name key : String)
    (hfail : ∀ c i, ∃ e, t.getResolver c i name = Except.error e) :
    ∀ (n : Nat) (s : ClientState),
      (getTextRecordWithRetry t pool name key n s).1 = Except.ok none ∧
      ((getTextRecordWithRetry t pool name key n s).2).getResolverCalls
        = s.getResolverCalls + n ∧
      ((getTextRecordWithRetry t pool name key n s).2).rotations
        = s.rotations + n := by
  intro n
  induction n with
  | zero => intro s; exact ⟨rfl, rfl, rfl⟩
  | succ n ih =>
    intro s
    obtain ⟨e, he⟩ := getResolverStep_fail t name hfail s
    have hf := getResolverStep_fields t name s
    rcases hx : getResolverStep t name s with ⟨a, s1⟩
    rw [hx] at he hf
    simp only at he hf
    subst he
    simp only [getTextRecordWithRetry, hx]
    obtain ⟨h1, h2, h3⟩ := ih (rotateProvider pool s1)
    have hrc : (rotateProvider pool s1).getResolverCalls
        = s1.getResolverCalls := rfl
    have hrr : (rotateProvider pool s1).rotations = s1.rotations + 1 := rfl
    refine ⟨h1, ?_, ?_⟩
    · rw [h2, hrc]; omega
    · rw [h3, hrr]; omega

/-- When the resolver lookup always succeeds but every text query fails,
`getTextRecordWithRetry` re-runs the whole two-step sequence each iteration:
per iteration one resolver lookup, one text query and one rotation, then
`null`. -/
theorem getTextRecordWithRetry_text_fail (t : Transport) (pool : List String)
    (name key : String) (r : Resolver)
    (hres : ∀ c i, t.getResolver c i name = Except.ok (some r))
    (htext : ∀ c, ∃ e, t.getText c r key = Except.error e) :
    ∀ (n : Nat) (s : ClientState),
      (getTextRecordWithRetry t pool name key n s).1 = Except.ok none ∧
      ((getTextRecordWithRetry t pool name key n s).2).getResolverCalls
        = s.getResolverCalls + n ∧
      ((getTextRecordWithRetry t pool name key n s).2).getTextCalls
        = s.getTextCalls + n ∧
      ((getTextRecordWithRetry t pool name key n s).2).rotations
        = s.rotations + n := by
  intro n
  induction n with
  | zero => intro s; exact ⟨rfl, rfl, rfl, rfl⟩
  | succ n ih =>
    intro s
    have hok := getResolverStep_ok t name r hres s
    have hf := getResolverStep_fields t name s
    rcases hx : getResolverStep t name s with ⟨a, s1⟩
    rw [hx] at hok hf
    simp only at hok hf
    subst hok
    obtain ⟨e, he⟩ := htext s1.calls
    simp only [getTextRecordWithRetry, hx, he]
    obtain ⟨h1, h2, h3, h4⟩ := ih (rotateProvider pool
      { s1 with calls := s1.calls + 1, getTextCalls := s1.getTextCalls + 1 })
    refine ⟨h1, ?_, ?_, ?_⟩
    · rw [h2]; simp [rotateProvider]; omega
    · rw [h3]; simp [rotateProvider]; omega
    · rw [h4]; simp [rotateProvider]; omega

/-- C8: the per-key text-record operation performs the two-step sequence
(resolver lookup, then one text query); on any failure in either step it
rotates the endpoint and retries the whole sequence for up to 3 attempts
total, and it returns absence — never an error — if the resolver does not
exist or if all attempts fail. -/
theorem getTextRecordWithRetry_spec (t : Transport) (pool : List String)
    (name key : String) (s : ClientState) :
    (∃ v, (getTextRecordWithRetry t pool name key 3 s).1 = Except.ok v) ∧
    ((getResolverStep t name s).1 = Except.ok none →
      (getTextRecordWithRetry t pool name key 3 s).1 = Except.ok none ∧
      ((getTextRecordWithRetry t pool name key 3 s).2).getTextCalls
        = s.getTextCalls) ∧
    ((∀ c i, ∃ e, t.getResolver c i name = Except.error e) →
      (getTextRecordWithRetry t pool name key 3 s).1 = Except.ok none ∧
      ((getTextRecordWithRetry t pool name key 3 s).2).getResolverCalls
        = s.getResolverCalls + 3 ∧
      ((getTextRecordWithRetry t pool name key 3 s).2).rotations
        = s.rotations + 3) ∧
    (∀ r : Resolver, (∀ c i, t.getResolver c i name = Except.ok (some r)) →
      (∀ c, ∃ e, t.getText c r key = Except.error e) →
      (getTextRecordWithRetry t pool name key 3 s).1 = Except.ok none ∧
      ((getTextRecordWithRetry t pool name key 3 s).2).getResolverCalls
        = s.getResolverCalls + 3 ∧
      ((getTextRecordWithRetry t pool name key 3 s).2).getTextCalls
        = s.getTextCalls + 3 ∧
      ((getTextRecordWithRetry t pool name key 3 s).2).rotations
        = s.rotations + 3) := by
  refine ⟨getTextRecordWithRetry_never_throws t pool name key 3 s, ?_, ?_, ?_⟩
  · intro h
    have hf := getResolverStep_fields t name s
    rcases hx : getResolverStep t name s with ⟨a, s1⟩
    rw [hx] at h hf
    simp only at h hf
    subst h
    simp only [getTextRecordWithRetry, hx]
    exact ⟨by simp, hf.1⟩
  · intro hfail
    exact getTextRecordWithRetry_all_fail t pool name key hfail 3 s
  · intro r hres htext
    exact getTextRecordWithRetry_text_fail t pool name key r hres htext 3 s

/-- C8 witness: the all-attempts-fail conjunct of the theorem at an
always-failing transport, the default pool and the start state. -/
theorem getTextRecordWithRetry_spec_witness :
    (getTextRecordWithRetry alwaysFailTransport (RPC_ENDPOINTS none)
        "alice.eth" "email" 3 initState).1 = Except.ok none ∧
    ((getTextRecordWithRetry alwaysFailTransport (RPC_ENDPOINTS none)
        "alice.eth" "email" 3 initState).2).getResolverCalls
      = initState.getResolverCalls + 3 ∧
    ((getTextRecordWithRetry alwaysFailTransport (RPC_ENDPOINTS none)
        "alice.eth" "email" 3 initState).2).rotations
      = initState.rotations + 3 :=
  (getTextRecordWithRetry_spec alwaysFailTransport (RPC_ENDPOINTS none)
      "alice.eth" "email" initState).2.2.1 (fun _ _ => ⟨"down", rfl⟩)

/-- If the first attempt succeeds, `withRetry` returns it immediately. -/
theorem withRetryAux_first_ok {α : Type} (pool : List String)
    (fn : ClientState → Except String α × ClientState) (n : Nat)
    (le : Option String) (s : ClientState) (v : α)
    (h : (fn s).1 = Except.ok v) :
    withRetryAux pool fn (Nat.succ n) le s = (Except.ok v, (fn s).2) := by
  rcases hx : fn s with ⟨a, s1⟩
  rw [hx] at h
  simp only at h
  subst h
  simp [withRetryAux, hx]

theorem getResolverStep_provider_of_some (t : Transport) (name : String)
    (s : ClientState) (i : Nat) (hp : s.provider = some i) :
    ((getResolverStep t name s).2).provider = s.provider := by
  simp [getResolverStep, getProvider_of_some s i hp, hp]

/-- C10: in the exported `getENSText`, only the resolver lookup is wrapped in
the retry helper.  When the resolver lookup succeeds and the subsequent
`getText` query always fails, the operation returns absence after exactly one
text query — no rotation, no further attempt, the cursor and the provider
handle untouched — while the internal per-key path `getTextRecordWithRetry`
retries and rotates on the same transport, consuming its whole budget. -/
theorem getENSText_no_text_retry (t : Transport) (pool : List String)
    (name key : String) (s : ClientState) (r : Resolver)
    (hp : s.provider = some s.currentRpcIndex)
    (hres : ∀ c i, t.getResolver c i name = Except.ok (some r))
    (htext : ∀ c, ∃ e, t.getText c r key = Except.error e) :
    ((getENSText t pool name key s).1 = Except.ok none ∧
     ((getENSText t pool name key s).2).getResolverCalls
       = s.getResolverCalls + 1 ∧
     ((getENSText t pool name key s).2).getTextCalls = s.getTextCalls + 1 ∧
     ((getENSText t pool name key s).2).rotations = s.rotations ∧
     ((getENSText t pool name key s).2).currentRpcIndex
       = s.currentRpcIndex ∧
     ((getENSText t pool name key s).2).provider = s.provider) ∧
    ((getTextRecordWithRetry t pool name key 3 s).1 = Except.ok none ∧
     ((getTextRecordWithRetry t pool name key 3 s).2).getTextCalls
       = s.getTextCalls + 3 ∧
     ((getTextRecordWithRetry t pool name key 3 s).2).rotations
       = s.rotations + 3) := by
  have hstep := getResolverStep_ok t name r hres s
  have hf := getResolverStep_fields t name s
  have hprov := getResolverStep_provider_of_some t name s s.currentRpcIndex hp
  have hw := withRetryAux_first_ok pool (getResolverStep t name) 2 none s
    (some r) hstep
  have hw' : withRetry pool (getResolverStep t name) 3 s
      = (Except.ok (some r), (getResolverStep t name s).2) := hw
  obtain ⟨e, he⟩ := htext ((getResolverStep t name s).2).calls
  constructor
  · refine ⟨?_, ?_, ?_, ?_, ?_, ?_⟩ <;>
      simp [getENSText, hw', he, hf.1, hf.2.1, hf.2.2.1, hf.2.2.2.1,
        hf.2.2.2.2.2, hprov]
  · obtain ⟨h1, h2, h3, h4⟩ :=
      getTextRecordWithRetry_text_fail t pool name key r hres htext 3 s
    exact ⟨h1, h3, h4⟩

/-- A transport that always finds resolver `0` and always fails the text
query (used by witnesses). -/
def textFailTransport : Transport :=
  { resolveName := fun _ _ _ => Except.error "down"
  , lookupAddress := fun _ _ _ => Except.error "down"
  , getResolver := fun _ _ _ => Except.ok (some 0)
  , getAvatar := fun _ _ => Except.error "down"
  , getText := fun _ _ _ => Except.error "down" }

/-- The module state after the provider handle has been constructed at
cursor 0. -/
def readyState : ClientState :=
  { currentRpcIndex := 0, provider := some 0, rotations := 0, trace := []
  , calls := 0, resolveCalls := 0, lookupCalls := 0, getResolverCalls := 0
  , getAvatarCalls := 0, getTextCalls := 0 }

/-- C10 witness: the theorem at a transport that resolves but fails every
text query, at the default pool and a state with a constructed handle. -/
theorem getENSText_no_text_retry_witness :
    ((getENSText textFailTransport (RPC_ENDPOINTS none) "alice.eth" "email"
        readyState).1 = Except.ok none ∧
     ((getENSText textFailTransport (RPC_ENDPOINTS none) "alice.eth" "email"
        readyState).2).getResolverCalls = readyState.getResolverCalls + 1 ∧
     ((getENSText textFailTransport (RPC_ENDPOINTS none) "alice.eth" "email"
        readyState).2).getTextCalls = readyState.getTextCalls + 1 ∧
     ((getENSText textFailTransport (RPC_ENDPOINTS none) "alice.eth" "email"
        readyState).2).rotations = readyState.rotations ∧
     ((getENSText textFailTransport (RPC_ENDPOINTS none) "alice.eth" "email"
        readyState).2).currentRpcIndex = readyState.currentRpcIndex ∧
     ((getENSText textFailTransport (RPC_ENDPOINTS none) "alice.eth" "email"
        readyState).2).provider = readyState.provider) ∧
    ((getTextRecordWithRetry textFailTransport (RPC_ENDPOINTS none)
        "alice.eth" "email" 3 readyState).1 = Except.ok none ∧
     ((getTextRecordWithRetry textFailTransport (RPC_ENDPOINTS none)
        "alice.eth" "email" 3 readyState).2).getTextCalls
       = readyState.getTextCalls + 3 ∧
     ((getTextRecordWithRetry textFailTransport (RPC_ENDPOINTS none)
        "alice.eth" "email" 3 readyState).2).rotations
       = readyState.rotations + 3) :=
  getENSText_no_text_retry textFailTransport (RPC_ENDPOINTS none) "alice.eth"
    "email" readyState 0 rfl (fun _ _ => rfl) (fun _ => ⟨"down", rfl⟩)

/-- The set `{c, (c+1) % n, (c+2) % n}` of cursor positions visited by a
3-attempt retry has exactly `min 3 n` elements. -/
theorem attempted_card (c n : Nat) (hc : c < n) :
    ([c, (c + 1) % n, (c + 2) % n] : List Nat).toFinset.card = min 3 n := by
  by_cases h1 : n = 1
  · subst h1
    interval_cases c
    decide
  · by_cases h2 : n = 2
    · subst h2
      interval_cases c <;> decide
    · have h3 : 3 ≤ n := by omega
      have hb : (c + 1) % n = c + 1 ∨ ((c + 1) % n = 0 ∧ c + 1 = n) := by
        by_cases h : c + 1 < n
        · exact Or.inl (Nat.mod_eq_of_lt h)
        · have hceq : c + 1 = n := by omega
          refine Or.inr ⟨?_, hceq⟩
          rw [hceq, Nat.mod_self]
      have hd : (c + 2) % n = c + 2 ∨ ((c + 2) % n = 0 ∧ c + 2 = n)
          ∨ ((c + 2) % n = 1 ∧ c + 2 = n + 1) := by
        by_cases h : c + 2 < n
        · exact Or.inl (Nat.mod_eq_of_lt h)
        · by_cases hx : c + 2 = n
          · refine Or.inr (Or.inl ⟨?_, hx⟩)
            rw [hx, Nat.mod_self]
          · have hy : c + 2 = n + 1 := by omega
            refine Or.inr (Or.inr ⟨?_, hy⟩)
            rw [hy, Nat.add_mod_left]
            exact Nat.mod_eq_of_lt (by omega)
      have hab : c ≠ (c + 1) % n := by
        rcases hb with h | ⟨h, h'⟩ <;> omega
      have had : c ≠ (c + 2) % n := by
        rcases hd with h | ⟨h, h'⟩ | ⟨h, h'⟩ <;> omega
      have hbd : (c + 1) % n ≠ (c + 2) % n := by
        rcases hb with h | ⟨h, h'⟩ <;>
          rcases hd with hz | ⟨hz, hz'⟩ | ⟨hz, hz'⟩ <;> omega
      have ht : ([c, (c + 1) % n, (c + 2) % n] : List Nat).toFinset
          = ({c, (c + 1) % n, (c + 2) % n} : Finset Nat) := by simp
      rw [ht, show min 3 n = 3 by omega]
      exact Finset.card_eq_three.mpr
        ⟨c, (c + 1) % n, (c + 2) % n, hab, had, hbd, rfl⟩

/-- C9: with a failing transport, a single retried call of budget 3 starting
at cursor `c` attempts exactly the endpoints at positions `c`, `(c+1) mod N`
and `(c+2) mod N` (in that order, as recorded by the ghost trace), a set of
exactly `min 3 N` distinct endpoints. -/
theorem withRetry_distinct_endpoints (t : Transport) (pool : List String)
    (name : String) (s : ClientState)
    (hc : s.currentRpcIndex < pool.length) (hp : s.provider = none)
    (hfail : ∀ c i, ∃ e, t.resolveName c i name = Except.error e) :
    ((withRetry pool (resolveNameStep t name) 3 s).2).trace
      = s.trace ++ [s.currentRpcIndex,
          (s.currentRpcIndex + 1) % pool.length,
          (s.currentRpcIndex + 2) % pool.length] ∧
    ([s.currentRpcIndex, (s.currentRpcIndex + 1) % pool.length,
        (s.currentRpcIndex + 2) % pool.length] : List Nat).toFinset.card
      = min 3 pool.length := by
  refine ⟨?_, attempted_card s.currentRpcIndex pool.length hc⟩
  obtain ⟨e1, he1⟩ := hfail s.calls s.currentRpcIndex
  obtain ⟨e2, he2⟩ :=
    hfail (s.calls + 1) ((s.currentRpcIndex + 1) % pool.length)
  obtain ⟨e3, he3⟩ :=
    hfail (s.calls + 1 + 1) ((s.currentRpcIndex + 2) % pool.length)
  have hmod : ((s.currentRpcIndex + 1) % pool.length + 1) % pool.length
      = (s.currentRpcIndex + 2) % pool.length := by
    rw [Nat.mod_add_mod]
  simp [withRetry, withRetryAux, resolveNameStep, getProvider, rotateProvider,
    hp, hmod, he1, he2, he3]

/-- C9 witness: the theorem at an always-failing transport, the default pool
and the start state. -/
theorem withRetry_distinct_endpoints_witness :
    ((withRetry (RPC_ENDPOINTS none)
        (resolveNameStep alwaysFailTransport "alice.eth") 3
        initState).2).trace
      = initState.trace ++ [initState.currentRpcIndex,
          (initState.currentRpcIndex + 1) % (RPC_ENDPOINTS none).length,
          (initState.currentRpcIndex + 2) % (RPC_ENDPOINTS none).length] ∧
    ([initState.currentRpcIndex,
        (initState.currentRpcIndex + 1) % (RPC_ENDPOINTS none).length,
        (initState.currentRpcIndex + 2) % (RPC_ENDPOINTS none).length]
        : List Nat).toFinset.card
      = min 3 (RPC_ENDPOINTS none).length :=
  withRetry_distinct_endpoints alwaysFailTransport (RPC_ENDPOINTS none)
    "alice.eth" initState (by decide) rfl (fun _ _ => ⟨"down", rfl⟩)

theorem aggKeep_eq_some_iff (res : Except String (Option String))
    (a k v : String) :
    aggKeep res a = some (k, v) ↔
      (a = k ∧ res = Except.ok (some v) ∧ v ≠ "") := by
  rcases res with e | o
  · simp [aggKeep]
  · rcases o with _ | w
    · simp [aggKeep]
    · by_cases hw : w = ""
      · subst hw
        constructor
        · intro h
          simp [aggKeep] at h
        · rintro ⟨-, h2, h3⟩
          simp only [Except.ok.injEq, Option.some.injEq] at h2
          exact absurd h2.symm h3
      · constructor
        · intro h
          simp only [aggKeep, if_neg hw, Option.some.injEq,
            Prod.mk.injEq] at h
          obtain ⟨rfl, rfl⟩ := h
          exact ⟨rfl, rfl, hw⟩
        · rintro ⟨rfl, h2, -⟩
          simp only [Except.ok.injEq, Option.some.injEq] at h2
          subst h2
          simp [aggKeep, hw]

theorem length_filterMap_isSome {α β : Type} (f : α → Option β)
    (l : List α) :
    (l.filterMap f).length = (l.filter (fun a => (f a).isSome)).length := by
  induction l with
  | nil => rfl
  | cons a l ih =>
    cases h : f a <;> simp [List.filterMap_cons, List.filter_cons, h, ih]

/-- C4: the mapping returned by `getAllTextRecords` has an entry `(k, v)`
exactly when `k` is one of the 12 well-known keys and its per-key lookup
settles with the non-empty value `v`; when exactly 2 of the 12 keys are kept
the mapping has exactly 2 entries, whichever they are; and when no key is
kept it is the empty mapping (not absence, not an error). -/
theorem getAllTextRecords_spec (ts : String → Transport) (pool : List String)
    (name : String) (s : ClientState) :
    (∀ k v, (k, v) ∈ getAllTextRecords ts pool name s ↔
      (k ∈ COMMON_TEXT_RECORDS ∧
       (getTextRecordWithRetry (ts k) pool name k 3 s).1
         = Except.ok (some v) ∧ v ≠ "")) ∧
    ((COMMON_TEXT_RECORDS.filter (recordTruthy ts pool name s)).length = 2 →
      (getAllTextRecords ts pool name s).length = 2) ∧
    ((∀ k ∈ COMMON_TEXT_RECORDS, recordTruthy ts pool name s k = false) →
      getAllTextRecords ts pool name s = []) := by
  refine ⟨?_, ?_, ?_⟩
  · intro k v
    unfold getAllTextRecords
    rw [List.mem_filterMap]
    constructor
    · rintro ⟨a, ha, hfa⟩
      obtain ⟨rfl, h2, h3⟩ := (aggKeep_eq_some_iff _ a k v).mp hfa
      exact ⟨ha, h2, h3⟩
    · rintro ⟨hk, h2, h3⟩
      exact ⟨k, hk, (aggKeep_eq_some_iff _ k k v).mpr ⟨rfl, h2, h3⟩⟩
  · intro h2
    unfold getAllTextRecords
    rw [length_filterMap_isSome]
    exact h2
  · intro hall
    unfold getAllTextRecords
    rw [List.filterMap_eq_nil_iff]
    intro a ha
    have hs := hall a ha
    unfold recordTruthy at hs
    cases hx : aggKeep ((getTextRecordWithRetry (ts a) pool name a 3 s).1) a
      with
    | none => rfl
    | some y => rw [hx] at hs; simp at hs

/-- A per-key transport family under which exactly the keys `email` and `url`
settle with a non-empty value and every other key exhausts its retries (used
by the C4 witness). -/
def twoKeysTransport (_ : String) : Transport :=
  { resolveName := fun _ _ _ => Except.error "down"
  , lookupAddress := fun _ _ _ => Except.error "down"
  , getResolver := fun _ _ _ => Except.ok (some 0)
  , getAvatar := fun _ _ => Except.error "down"
  , getText := fun _ _ k =>
      if k = "email" then Except.ok (some "a@b.c")
      else if k = "url" then Except.ok (some "https://a.bc")
      else Except.error "down" }

/-- C4 witness: with exactly 2 of the 12 keys resolvable, the mapping has
exactly 2 entries. -/
theorem getAllTextRecords_spec_witness :
    (COMMON_TEXT_RECORDS.filter
        (recordTruthy twoKeysTransport (RPC_ENDPOINTS none) "alice.eth"
          initState)).length = 2 ∧
    (getAllTextRecords twoKeysTransport (RPC_ENDPOINTS none) "alice.eth"
        initState).length = 2 :=
  ⟨by decide,
   (getAllTextRecords_spec twoKeysTransport (RPC_ENDPOINTS none) "alice.eth"
       initState).2.1 (by decide)⟩

end EnsSocial
